import Mathlib

/-!
Verification development for the two-stage lead-qualification pipeline in
`lead_gen.py`.

The repository's code is a Streamlit script.  Its logic is embedded shallowly:

* Python strings are `List Char`; `str.strip`, `str.replace`, `str.startswith`,
  `str.lower`, `str.upper`, `', '.join` are embedded as executable functions
  on `List Char` (`pyStrip`, `replaceAll`, `List.isPrefixOf`, `lowerL`,
  `upperL`, `joinComma`).  `replaceAll` replaces every non-overlapping
  occurrence left to right, exactly like `str.replace`.
* `json.loads` (a stdlib dependency) is modelled by `jsonLoads`, a recursive
  descent parser over the JSON fragment the program exchanges: objects,
  arrays, strings with the common escapes, integers (no leading zero),
  `true` / `false` / `null`, with the four JSON whitespace characters.
  Floats and `\u` escapes are outside the modelled fragment.
* The Anthropic client call is an opaque provider, `provider : prompt →
  ProviderResult`, returning the reply text or a failure message; exceptions
  are modelled as values, so a stage function is a total function into
  `StageResult` exactly as the `try/except` makes the Python function total.
* `st.session_state.analysis_history` is an explicit `List AnalysisRecord`
  threaded through `runPipeline`.
* Dictionary indexing `d[k]` is `Json.get`, returning `none` where Python
  raises `KeyError` / `TypeError`; truthiness of a parsed JSON value is
  `jsonTruthy`.
-/

set_option maxRecDepth 40000

def strL (s : String) : List Char := s.data

/-- Whitespace stripped by Python `str.strip()` (the ASCII cases). -/
def pyWS (c : Char) : Bool :=
  c == ' ' || c == '\t' || c == '\n' || c == '\r' || c == '\x0b' || c == '\x0c'

/-- Whitespace skipped by the JSON grammar (`json.loads`). -/
def jsonWS (c : Char) : Bool :=
  c == ' ' || c == '\t' || c == '\n' || c == '\r'

/-- Python `str.strip()`: drop leading and trailing whitespace. -/
def pyStrip (l : List Char) : List Char :=
  ((l.dropWhile pyWS).reverse.dropWhile pyWS).reverse

/-- Python `str.lower()` (ASCII case mapping). -/
def lowerL (l : List Char) : List Char := l.map Char.toLower

/-- Python `str.upper()` (ASCII case mapping). -/
def upperL (l : List Char) : List Char := l.map Char.toUpper

/-- Python `', '.join(xs)`. -/
def joinComma : List (List Char) → List Char
  | [] => []
  | [x] => x
  | x :: rest => x ++ strL (", ") ++ joinComma rest

/-- Fuel-indexed worker for `replaceAll`; the fuel is the input length, and
each step consumes at least one character, so the fuel never runs out when
started at the input length. -/
def replGo (pat : List Char) : Nat → List Char → List Char
  | _, [] => []
  | 0, l => l
  | n + 1, c :: rest =>
    if pat.isPrefixOf (c :: rest) then replGo pat n ((c :: rest).drop pat.length)
    else c :: replGo pat n rest

/-- Python `s.replace(pat, '')`: delete every non-overlapping occurrence of
`pat`, scanning left to right. -/
def replaceAll (pat l : List Char) : List Char := replGo pat l.length l

/-- `occurs pat l` is true when `pat` occurs as a contiguous substring of
`l`. -/
def occurs (pat : List Char) : List Char → Bool
  | [] => pat.isPrefixOf ([] : List Char)
  | c :: rest => pat.isPrefixOf (c :: rest) || occurs pat rest

/-- The literal marker ` ``` ` (written with escapes). -/
def tick3 : List Char := strL ("\x60\x60\x60")

/-- The literal marker ` ```json `. -/
def fence7 : List Char := strL ("\x60\x60\x60json")

/-! ## The JSON value model and a model of `json.loads` -/

inductive Json where
  | null : Json
  | bool : Bool → Json
  | num : Int → Json
  | str : List Char → Json
  | arr : List Json → Json
  | obj : List (List Char × Json) → Json

/-- Lookup of the last binding of a key, as a Python dict built by
`json.loads` keeps the last duplicate. -/
def assocLast (key : List Char) : List (List Char × Json) → Option Json
  | [] => none
  | (k, v) :: rest =>
    match assocLast key rest with
    | some r => some r
    | none => if k = key then some v else none

/-- Python `d[k]` on a parsed JSON value: `none` both for a missing key
(`KeyError`) and for indexing a non-object (`TypeError`). -/
def Json.get (j : Json) (key : List Char) : Option Json :=
  match j with
  | .obj kvs => assocLast key kvs
  | _ => none

/-- Python truthiness of a parsed JSON value. -/
def jsonTruthy : Json → Bool
  | .null => false
  | .bool b => b
  | .num n => decide (n ≠ 0)
  | .str s => !s.isEmpty
  | .arr xs => !xs.isEmpty
  | .obj kvs => !kvs.isEmpty

def asStr : Json → Option (List Char)
  | .str s => some s
  | _ => none

def asArr : Json → Option (List Json)
  | .arr xs => some xs
  | _ => none

def intStr (n : Int) : List Char :=
  if n < 0 then '-' :: Nat.toDigits 10 n.natAbs else Nat.toDigits 10 n.toNat

def natStr (n : Nat) : List Char := Nat.toDigits 10 n

mutual
/-- Python `str()` of a parsed JSON value, as used inside f-strings.  Scalars
are exact; containers are approximated by a bracketed rendering (no claim
evaluates `pyStr` on a container). -/
def pyStr : Json → List Char
  | .null => strL ("None")
  | .bool true => strL ("True")
  | .bool false => strL ("False")
  | .num n => intStr n
  | .str s => s
  | .arr xs => '[' :: (pyStrList xs ++ [']'])
  | .obj kvs => '\x7b' :: (pyStrObj kvs ++ ['\x7d'])
def pyStrList : List Json → List Char
  | [] => []
  | [x] => pyStr x
  | x :: xs => pyStr x ++ strL (", ") ++ pyStrList xs
def pyStrObj : List (List Char × Json) → List Char
  | [] => []
  | [(k, v)] => k ++ strL (": ") ++ pyStr v
  | (k, v) :: kvs => k ++ strL (": ") ++ pyStr v ++ strL (", ") ++ pyStrObj kvs
end

/-- JSON string escapes (the `\u` form is outside the modelled fragment).
The self-representing escapes are quote, backslash and slash; the named ones
map to their ASCII control codes. -/
def escChar (e : Char) : Option Char :=
  if e = '"' ∨ e = '\\' ∨ e = '/' then some e
  else if e = 'n' then some (Char.ofNat 10)
  else if e = 't' then some (Char.ofNat 9)
  else if e = 'r' then some (Char.ofNat 13)
  else if e = 'b' then some (Char.ofNat 8)
  else if e = 'f' then some (Char.ofNat 12)
  else none

/-- Parse the body of a JSON string after the opening quote; returns the
decoded characters and the rest after the closing quote. -/
def parseStringBody : List Char → Option (List Char × List Char)
  | [] => none
  | '"' :: r => some ([], r)
  | '\\' :: rest =>
    match rest with
    | [] => none
    | e :: r =>
      match escChar e with
      | none => none
      | some c =>
        match parseStringBody r with
        | none => none
        | some (s, r') => some (c :: s, r')
  | c :: r =>
    match parseStringBody r with
    | none => none
    | some (s, r') => some (c :: s, r')

/-- Parse a JSON integer (optional minus, no leading zero). -/
def parseNumber (s : List Char) : Option (Json × List Char) :=
  let negAndRest : Bool × List Char :=
    match s with
    | '-' :: r => (true, r)
    | _ => (false, s)
  let ds := negAndRest.2.takeWhile Char.isDigit
  let rest := negAndRest.2.dropWhile Char.isDigit
  if ds.isEmpty then none
  else if ds.length > 1 && (ds.headD '0') == '0' then none
  else
    let n : Nat := ds.foldl (fun a c => a * 10 + (c.toNat - 48)) 0
    some (.num (if negAndRest.1 then -(n : Int) else (n : Int)), rest)

mutual
def parseVal : Nat → List Char → Option (Json × List Char)
  | 0, _ => none
  | fuel + 1, s =>
    match s.dropWhile jsonWS with
    | [] => none
    | c :: r =>
      if c = '"' then
        match parseStringBody r with
        | some (t, r') => some (.str t, r')
        | none => none
      else if c = '[' then
        match r.dropWhile jsonWS with
        | ']' :: r' => some (.arr [], r')
        | _ => parseElems fuel r []
      else if c = '\x7b' then
        match r.dropWhile jsonWS with
        | '\x7d' :: r' => some (.obj [], r')
        | _ => parseMembers fuel r []
      else if c = 't' then
        match r with
        | 'r' :: 'u' :: 'e' :: r' => some (.bool true, r')
        | _ => none
      else if c = 'f' then
        match r with
        | 'a' :: 'l' :: 's' :: 'e' :: r' => some (.bool false, r')
        | _ => none
      else if c = 'n' then
        match r with
        | 'u' :: 'l' :: 'l' :: r' => some (.null, r')
        | _ => none
      else if c = '-' || c.isDigit then parseNumber (c :: r)
      else none
def parseElems : Nat → List Char → List Json → Option (Json × List Char)
  | 0, _, _ => none
  | fuel + 1, s, acc =>
    match parseVal fuel s with
    | none => none
    | some (v, r) =>
      match r.dropWhile jsonWS with
      | ',' :: r' => parseElems fuel r' (acc ++ [v])
      | ']' :: r' => some (.arr (acc ++ [v]), r')
      | _ => none
def parseMembers : Nat → List Char → List (List Char × Json) → Option (Json × List Char)
  | 0, _, _ => none
  | fuel + 1, s, acc =>
    match s.dropWhile jsonWS with
    | '"' :: r =>
      match parseStringBody r with
      | none => none
      | some (k, r1) =>
        match r1.dropWhile jsonWS with
        | ':' :: r2 =>
          match parseVal fuel r2 with
          | none => none
          | some (v, r3) =>
            match r3.dropWhile jsonWS with
            | ',' :: r4 => parseMembers fuel r4 (acc ++ [(k, v)])
            | '\x7d' :: r4 => some (.obj (acc ++ [(k, v)]), r4)
            | _ => none
        | _ => none
    | _ => none
end

/-- Model of `json.loads`: parse one value and require only whitespace after
it. -/
def jsonLoads (s : List Char) : Option Json :=
  match parseVal (s.length + 1) s with
  | some (v, rest) => if (rest.dropWhile jsonWS).isEmpty then some v else none
  | none => none

/-! ## The Response Parser (lines 249-254 and 329-333 of `lead_gen.py`)

```python
response_text = message.content[0].text.strip()
if response_text.startswith("```json"):
    response_text = response_text.replace("```json", "").replace("```", "").strip()
analysis = json.loads(response_text)
```
-/

/-- The shared reply-parsing logic of both stages. `none` models a raised
`json.JSONDecodeError`. -/
def parseResponse (t : List Char) : Option Json :=
  if fence7.isPrefixOf (pyStrip t) then
    jsonLoads (pyStrip (replaceAll tick3 (replaceAll fence7 (pyStrip t))))
  else jsonLoads (pyStrip t)

/-! ## Prompt Builder (lines 213-237 and 279-318) -/

/-- The stage-1 prompt (source lines 213-237); `\x7b`/`\x7d` stand for the
brace characters the f-string renders from the doubled braces. -/
def fitPrompt (company : List Char) (target_sectors target_industries : List (List Char))
    (our_services : List Char) : List Char :=
  strL ("You are a lead qualification analyst for a consulting company specializing in data science, AI, and business intelligence.\n\nOur Target Profile:\n- Target Sectors: ")
  ++ joinComma target_sectors
  ++ strL ("\n- Target Industries: ")
  ++ joinComma target_industries
  ++ strL ("\n- Our Services: ")
  ++ our_services
  ++ strL ("\n\nCompany to Analyze: ")
  ++ company
  ++ strL ("\n\nPlease analyze this company and provide a JSON response with the following structure:\n\n\x7b\n    \"company_name\": \"string\",\n    \"industry\": \"string\",\n    \"sector\": \"string\",\n    \"company_size\": \"string (estimated employees)\",\n    \"is_good_fit\": true/false,\n    \"fit_score\": 0-100,\n    \"fit_reasoning\": \"detailed explanation of why this is or isn't a good fit\",\n    \"brief_company_overview\": \"2-3 sentence overview of what the company does\"\n\x7d\n\nBase your analysis on publicly available information about the company. Be thorough and honest in your assessment.\n\nIMPORTANT: Respond ONLY with valid JSON. Do not include any text outside the JSON structure.")

/-- The stage-2 prompt (source lines 279-318). -/
def painPrompt (company overview industry our_services : List Char) : List Char :=
  strL ("You are a business development analyst specializing in data science, AI, and analytics consulting.\n\nCompany Information:\n- Name: ")
  ++ company
  ++ strL ("\n- Industry: ")
  ++ industry
  ++ strL ("\n- Overview: ")
  ++ overview
  ++ strL ("\n\nOur Services:\n")
  ++ our_services
  ++ strL ("\n\nPlease provide a comprehensive analysis in JSON format:\n\n\x7b\n    \"potential_pain_points\": [\n        \x7b\n            \"pain_point\": \"description\",\n            \"severity\": \"high/medium/low\",\n            \"evidence\": \"why we think this is a pain point\"\n        \x7d\n    ],\n    \"how_we_can_help\": [\n        \x7b\n            \"our_solution\": \"which service/capability\",\n            \"addresses_pain_point\": \"which pain point\",\n            \"value_proposition\": \"specific benefit\",\n            \"implementation_approach\": \"brief description\"\n        \x7d\n    ],\n    \"engagement_strategy\": \x7b\n        \"primary_contact\": \"suggested role to reach out to\",\n        \"key_talking_points\": [\"point1\", \"point2\", \"point3\"],\n        \"differentiation_angle\": \"what makes our approach unique for them\"\n    \x7d,\n    \"estimated_opportunity_value\": \"small/medium/large/enterprise\",\n    \"recommended_next_steps\": [\"step1\", \"step2\", \"step3\"]\n\x7d\n\nBe specific and actionable. Base your analysis on typical challenges in their industry and company profile.\n\nIMPORTANT: Respond ONLY with valid JSON. Do not include any text outside the JSON structure.")

/-! ## Model Client Adapter and the two stage functions (lines 194-258, 261-337)

The provider (Anthropic API round trip) is opaque: it maps a prompt to a
reply text or to a failure message (any exception raised by
`client.messages.create`, which the `try` block catches).  Constructing the
client for a string key and interpolating strings into the prompt templates
cannot raise, matching the code, where those two steps sit before the `try`. -/

inductive ProviderResult where
  | text : List Char → ProviderResult
  | failure : List Char → ProviderResult

/-- The `{"success": True, "data": ...} / {"success": False, "error": ...}`
result dictionaries of both stage functions. -/
inductive StageResult where
  | ok : Json → StageResult
  | err : List Char → StageResult

/-- Message of `str(e)` for a `json.JSONDecodeError`; the model fixes one
message text since no claim inspects it. -/
def jsonErrorMsg : List Char := strL ("Expecting value: line 1 column 1 (char 0)")

/-- Step 1 of the pipeline: `analyze_company_fit` (source lines 194-258). -/
def analyze_company_fit (company_name : List Char)
    (target_sectors target_industries : List (List Char)) (our_services : List Char)
    (provider : List Char → ProviderResult) : StageResult :=
  match provider (fitPrompt company_name target_sectors target_industries our_services) with
  | .failure e => .err e
  | .text t =>
    match parseResponse t with
    | some j => .ok j
    | none => .err jsonErrorMsg

/-- Step 2 of the pipeline: `generate_pain_point_analysis` (source lines
261-337). -/
def generate_pain_point_analysis (company_name company_overview industry our_services : List Char)
    (provider : List Char → ProviderResult) : StageResult :=
  match provider (painPrompt company_name company_overview industry our_services) with
  | .failure e => .err e
  | .text t =>
    match parseResponse t with
    | some j => .ok j
    | none => .err jsonErrorMsg

/-! ## Report Renderer: `generate_pdf_report` (lines 25-191)

The reportlab document is modelled as the list of flowables appended to
`story`, keeping each paragraph's style and fully rendered text.  Spacer
sizes and table column widths are layout parameters with no observable
structure and are dropped.  A `none` result models an exception raised
inside `generate_pdf_report` (e.g. `KeyError` on a missing field, or a
non-string passed to `Paragraph`/`.lower()`/`.upper()`), which the callers
catch around the PDF export. -/

inductive StyleName where
  | title | heading | subheading | normal | footer
deriving DecidableEq

inductive Elem where
  | paragraph : StyleName → List Char → Elem
  | spacer : Elem
  | pageBreak : Elem
  | table : List (List (List Char)) → Elem
deriving DecidableEq

/-- `severity_symbol.get(pain['severity'].lower(), '•')` (lines 136-137). -/
def severitySymbol (sev : List Char) : Char :=
  if lowerL sev = strL ("high") then '●'
  else if lowerL sev = strL ("medium") then '▲'
  else if lowerL sev = strL ("low") then '○'
  else '•'

/-- Text of the pain-point header paragraph of entry `idx` (line 139). -/
def painEntryText (idx : Nat) (sev pp : List Char) : List Char :=
  strL ("<b>") ++ [severitySymbol sev] ++ strL (" Pain Point ") ++ natStr idx
    ++ strL (": ") ++ pp ++ strL ("</b>")

/-- One iteration of the pain-point loop (lines 135-142). -/
def painPointBlock (idx : Nat) (p : Json) : Option (List Elem) := do
  let sev ← (p.get (strL ("severity"))).bind asStr
  let pp ← p.get (strL ("pain_point"))
  let ev ← p.get (strL ("evidence"))
  pure [ .paragraph .subheading (painEntryText idx sev (pyStr pp)),
         .paragraph .normal (strL ("<b>Severity:</b> ") ++ upperL sev),
         .paragraph .normal (strL ("<b>Evidence:</b> ") ++ pyStr ev),
         .spacer ]

/-- The pain-point loop, `enumerate(..., 1)` (lines 135-142). -/
def painBlocks : Nat → List Json → Option (List Elem)
  | _, [] => some []
  | idx, p :: rest => do
    let b ← painPointBlock idx p
    let bs ← painBlocks (idx + 1) rest
    pure (b ++ bs)

/-- One iteration of the solutions loop (lines 147-152). -/
def solutionBlock (idx : Nat) (s : Json) : Option (List Elem) := do
  let sol ← s.get (strL ("our_solution"))
  let ad ← s.get (strL ("addresses_pain_point"))
  let vp ← s.get (strL ("value_proposition"))
  let ia ← s.get (strL ("implementation_approach"))
  pure [ .paragraph .subheading (strL ("<b>Solution ") ++ natStr idx ++ strL (": ")
           ++ pyStr sol ++ strL ("</b>")),
         .paragraph .normal (strL ("<b>Addresses:</b> ") ++ pyStr ad),
         .paragraph .normal (strL ("<b>Value Proposition:</b> ") ++ pyStr vp),
         .paragraph .normal (strL ("<b>Implementation Approach:</b> ") ++ pyStr ia),
         .spacer ]

def solutionBlocks : Nat → List Json → Option (List Elem)
  | _, [] => some []
  | idx, s :: rest => do
    let b ← solutionBlock idx s
    let bs ← solutionBlocks (idx + 1) rest
    pure (b ++ bs)

/-- The numbered next-steps loop (lines 173-175). -/
def stepBlocks : Nat → List Json → List Elem
  | _, [] => []
  | idx, s :: rest =>
    .paragraph .normal (natStr idx ++ strL (". ") ++ pyStr s) :: .spacer
      :: stepBlocks (idx + 1) rest

/-- Lines 84-128: title block, company overview, fit table and reasoning. -/
def fitStory (company_name genTime : List Char) (fit_data : Json) : Option (List Elem) := do
  let ov ← (fit_data.get (strL ("brief_company_overview"))).bind asStr
  let ind ← fit_data.get (strL ("industry"))
  let sec ← fit_data.get (strL ("sector"))
  let csz ← fit_data.get (strL ("company_size"))
  let fsc ← fit_data.get (strL ("fit_score"))
  let gf ← fit_data.get (strL ("is_good_fit"))
  let fr ← (fit_data.get (strL ("fit_reasoning"))).bind asStr
  pure [ .paragraph .title (strL ("Lead Analysis Report")),
         .paragraph .heading (strL ("<b>") ++ company_name ++ strL ("</b>")),
         .paragraph .normal (strL ("Generated: ") ++ genTime),
         .spacer,
         .paragraph .heading (strL ("Company Overview")),
         .paragraph .normal ov,
         .spacer,
         .paragraph .heading (strL ("Fit Analysis")),
         .table [ [strL ("Metric"), strL ("Value")],
                  [strL ("Industry"), pyStr ind],
                  [strL ("Sector"), pyStr sec],
                  [strL ("Company Size"), pyStr csz],
                  [strL ("Fit Score"), pyStr fsc ++ strL ("/100")],
                  [strL ("Good Fit?"), if jsonTruthy gf then strL ("Yes ✓") else strL ("No ✗")] ],
         .spacer,
         .paragraph .subheading (strL ("Fit Assessment Reasoning")),
         .paragraph .normal fr,
         .spacer ]

/-- Lines 131-175: the conditional pain/solutions/strategy/next-steps part. -/
def painStory (pain_data : Json) : Option (List Elem) := do
  let pts ← (pain_data.get (strL ("potential_pain_points"))).bind asArr
  let blocks ← painBlocks 1 pts
  let sols ← (pain_data.get (strL ("how_we_can_help"))).bind asArr
  let solBlocks ← solutionBlocks 1 sols
  let strat ← pain_data.get (strL ("engagement_strategy"))
  let pc ← strat.get (strL ("primary_contact"))
  let eov ← (pain_data.get (strL ("estimated_opportunity_value"))).bind asStr
  let kts ← (strat.get (strL ("key_talking_points"))).bind asArr
  let da ← strat.get (strL ("differentiation_angle"))
  let steps ← (pain_data.get (strL ("recommended_next_steps"))).bind asArr
  pure ( [ .pageBreak,
           .paragraph .heading (strL ("Pain Points Analysis")) ]
      ++ blocks
      ++ [ .paragraph .heading (strL ("How Can Help")) ]
      ++ solBlocks
      ++ [ .pageBreak,
           .paragraph .heading (strL ("Engagement Strategy")),
           .paragraph .normal (strL ("<b>Primary Contact:</b> ") ++ pyStr pc),
           .paragraph .normal (strL ("<b>Estimated Opportunity Value:</b> ") ++ upperL eov),
           .spacer,
           .paragraph .subheading (strL ("<b>Key Talking Points:</b>")) ]
      ++ kts.map (fun p => .paragraph .normal (strL ("• ") ++ pyStr p))
      ++ [ .spacer,
           .paragraph .normal (strL ("<b>Differentiation Angle:</b> ") ++ pyStr da),
           .spacer,
           .paragraph .heading (strL ("Recommended Next Steps")) ]
      ++ stepBlocks 1 steps )

/-- `generate_pdf_report` (lines 25-191): the full story, with a final spacer
and footer line (lines 178-186).  `pain_data = none` is the `None` default. -/
def generate_pdf_report (company_name genTime : List Char) (fit_data : Json)
    (pain_data : Option Json) : Option (List Elem) := do
  let a ← fitStory company_name genTime fit_data
  let b ← match pain_data with
          | none => some ([] : List Elem)
          | some pd => painStory pd
  pure (a ++ b ++ [ .spacer,
    .paragraph .footer (strL ("Generated by Lead Generation Agent | Powered by Claude AI")) ])

/-- Prefix test written with nested matches so it reduces definitionally even
when the tail of the scanned list is opaque. -/
def startsWithL (pat l : List Char) : Bool :=
  match pat with
  | [] => true
  | p :: ps =>
    match l with
    | [] => false
    | c :: cs => p == c && startsWithL ps cs

/-- Recognizer for the header paragraph of a pain-point entry: a subheading
whose text is `<b>`, one of the four severity bullets, then ` Pain Point `.
No other paragraph the renderer emits has this shape (solution headers
continue with `Solution`, the talking-points header with `Key`). -/
def isPainEntry (e : Elem) : Bool :=
  match e with
  | .paragraph st text =>
    match st with
    | .subheading =>
      match text with
      | '<' :: 'b' :: '>' :: c :: rest =>
        (c == '●' || c == '▲' || c == '○' || c == '•')
          && startsWithL (strL (" Pain Point ")) rest
      | _ => false
    | _ => false
  | _ => false

/-- The pain-point entries of a rendered story, in render order. -/
def painEntries (story : List Elem) : List Elem := story.filter isPainEntry

/-- Spec-side description of what the pain-point entries must be: the input
sequence mapped, in order, to header paragraphs (`enumerate(..., 1)`). -/
def expectedEntries : Nat → List Json → List Elem
  | _, [] => []
  | idx, p :: rest =>
    .paragraph .subheading
      (painEntryText idx (((p.get (strL ("severity"))).bind asStr).getD [])
        (pyStr ((p.get (strL ("pain_point"))).getD .null)))
      :: expectedEntries (idx + 1) rest

/-! ## Analysis Pipeline and History Store (lines 410-552, 554-590)

One click of "Analyze Lead" with a non-empty key and company name.  The two
provider round trips are the run's inputs.  After stage 1 succeeds, the
result display (lines 436-447) indexes `fit_data` five times; a missing key
raises `KeyError` outside any `try`, and line 438 hands the raw `industry`
value to `st.metric`, which rejects containers — either crashes the run
before the `is_good_fit` branch (`Outcome.fitDisplayError`).  The stage-2
display (lines 469-505) can likewise crash (`Outcome.painDisplayError`)
before the history append at line 508 — but note that Python iterates
string- and dict-valued sequence fields without raising (and empty ones
vacuously), so such runs do reach the append; `displayPain` follows that.  The PDF
export that follows (lines 521-532 / 541-552) is `generate_pdf_report`
above; it runs inside its own `try` and can neither undo the append nor
change the call count, so it is not part of `RunResult`. -/

structure AnalysisRecord where
  timestamp : List Char
  company_name : List Char
  fit_data : Json
  pain_data : Option Json

inductive Outcome where
  | fitFailed : List Char → Outcome
  | fitDisplayError : Outcome
  | poorFit : Outcome
  | painFailed : List Char → Outcome
  | painDisplayError : Outcome
  | fullSuccess : Outcome
deriving DecidableEq

structure RunResult where
  outcome : Outcome
  history : List AnalysisRecord
  providerCalls : Nat

/-- Streamlit `st.metric` accepts `int`, `float`, `str` or `None` as its
`value` and raises `StreamlitAPIException` for anything else; a parsed JSON
boolean is a Python `int` subclass, so of the parsed JSON values exactly the
containers are rejected.  Line 438 passes the raw `industry` value. -/
def metricValueOk : Json → Bool
  | .arr _ => false
  | .obj _ => false
  | _ => true

/-- A `for` loop over a parsed JSON value whose body indexes each element
(lines 469-477 and 481-485): a list iterates its elements, which the body
then indexes (`elemOk`); a string iterates character-wise and a dict iterates
its keys, so a non-empty string or dict crashes at the body's first `str`
indexing (`TypeError`) while an empty one iterates zero times and succeeds;
scalars are not iterable and raise `TypeError` at the loop head. -/
def iterElemsOk (elemOk : Json → Bool) : Json → Bool
  | .arr l => l.all elemOk
  | .str s => s.isEmpty
  | .obj kvs => kvs.isEmpty
  | _ => false

/-- A `for` loop over a parsed JSON value whose body only formats each
element into an f-string (lines 497-499 and 503-505): any list, string or
dict iterates without raising; scalars raise `TypeError`. -/
def iterableOk : Json → Bool
  | .arr _ => true
  | .str _ => true
  | .obj _ => true
  | _ => false

/-- The stage-1 display (lines 436-447): the five keys are read (`KeyError`
when missing) and line 438 hands the raw `industry` value to `st.metric`
(`StreamlitAPIException` for container values).  The other values only flow
into f-strings, `st.info` and `st.write`, which accept anything.  `false`
means the run crashes here. -/
def displayFit (fit_data : Json) : Bool :=
  (fit_data.get (strL ("fit_score"))).isSome
  && (match fit_data.get (strL ("industry")) with
      | none => false
      | some v => metricValueOk v)
  && (fit_data.get (strL ("is_good_fit"))).isSome
  && (fit_data.get (strL ("brief_company_overview"))).isSome
  && (fit_data.get (strL ("fit_reasoning"))).isSome

/-- The stage-2 display (lines 469-505): the pain-point loop reads each
entry's `severity` (a `str`, for `.lower()`/`.upper()`), `pain_point` and
`evidence`; the solutions loop reads its four keys; the strategy block reads
`primary_contact`, `estimated_opportunity_value` (a `str`, for `.upper()`),
iterates `key_talking_points` and reads `differentiation_angle`; then
`recommended_next_steps` is iterated.  The two entry loops follow Python
iteration (`iterElemsOk`); the two formatting loops accept any iterable
(`iterableOk`).  `false` means the run crashes before the append at
line 508. -/
def displayPain (pain_data : Json) : Bool :=
  (match pain_data.get (strL ("potential_pain_points")) with
   | none => false
   | some v => iterElemsOk (fun p =>
       ((p.get (strL ("severity"))).bind asStr).isSome
       && (p.get (strL ("pain_point"))).isSome
       && (p.get (strL ("evidence"))).isSome) v)
  && (match pain_data.get (strL ("how_we_can_help")) with
      | none => false
      | some v => iterElemsOk (fun s =>
          (s.get (strL ("our_solution"))).isSome
          && (s.get (strL ("addresses_pain_point"))).isSome
          && (s.get (strL ("value_proposition"))).isSome
          && (s.get (strL ("implementation_approach"))).isSome) v)
  && (match pain_data.get (strL ("engagement_strategy")) with
      | none => false
      | some strat =>
          (strat.get (strL ("primary_contact"))).isSome
          && ((pain_data.get (strL ("estimated_opportunity_value"))).bind asStr).isSome
          && (match strat.get (strL ("key_talking_points")) with
              | none => false
              | some v => iterableOk v)
          && (strat.get (strL ("differentiation_angle"))).isSome)
  && (match pain_data.get (strL ("recommended_next_steps")) with
      | none => false
      | some v => iterableOk v)

/-- `st.session_state.analysis_history.append(...)` (lines 508-513). -/
def appendRecord (history : List AnalysisRecord) (r : AnalysisRecord) : List AnalysisRecord :=
  history ++ [r]

/-- One full pipeline run (lines 410-552), threading the history store and
counting provider round trips. -/
def runPipeline (company_name genTime : List Char)
    (target_sectors target_industries : List (List Char)) (our_services : List Char)
    (provider1 provider2 : List Char → ProviderResult)
    (history : List AnalysisRecord) : RunResult :=
  match analyze_company_fit company_name target_sectors target_industries our_services provider1 with
  | .err e => ⟨.fitFailed e, history, 1⟩
  | .ok fit_data =>
    if displayFit fit_data then
      if jsonTruthy ((fit_data.get (strL ("is_good_fit"))).getD .null) then
        match generate_pain_point_analysis company_name
            (pyStr ((fit_data.get (strL ("brief_company_overview"))).getD .null))
            (pyStr ((fit_data.get (strL ("industry"))).getD .null))
            our_services provider2 with
        | .err e => ⟨.painFailed e, history, 2⟩
        | .ok pain_data =>
          if displayPain pain_data then
            ⟨.fullSuccess,
             appendRecord history ⟨genTime, company_name, fit_data, some pain_data⟩, 2⟩
          else ⟨.painDisplayError, history, 2⟩
      else ⟨.poorFit, history, 1⟩
    else ⟨.fitDisplayError, history, 1⟩

/-- The History tab iterates `reversed(st.session_state.analysis_history)`
(line 560). -/
def displayOrder (history : List AnalysisRecord) : List AnalysisRecord :=
  history.reverse

/-- The inputs of one pipeline run (configuration and the two provider
round-trip behaviours). -/
structure RunInput where
  company_name : List Char
  genTime : List Char
  target_sectors : List (List Char)
  target_industries : List (List Char)
  our_services : List Char
  provider1 : List Char → ProviderResult
  provider2 : List Char → ProviderResult

def stepHistory (history : List AnalysisRecord) (i : RunInput) : List AnalysisRecord :=
  (runPipeline i.company_name i.genTime i.target_sectors i.target_industries
    i.our_services i.provider1 i.provider2 history).history

/-- The history store produced by a session: a sequence of runs starting from
the empty list created at line 22-23. -/
def runAll (inputs : List RunInput) : List AnalysisRecord :=
  inputs.foldl stepHistory []

/-! ## Helper lemmas about `occurs`, `replaceAll` and `pyStrip` -/

theorem occurs_iff_isInfix (pat l : List Char) : occurs pat l = true ↔ pat <:+: l := by
  induction l with
  | nil => simp [occurs, List.isPrefixOf_iff_prefix]
  | cons c rest ih => simp [occurs, List.isPrefixOf_iff_prefix, List.infix_cons_iff, ih]

theorem replGo_of_not_occurs (pat : List Char) :
    ∀ (n : Nat) (l : List Char), occurs pat l = false → replGo pat n l = l := by
  intro n
  induction n with
  | zero => intro l _; cases l <;> rfl
  | succ n ih =>
    intro l h
    cases l with
    | nil => rfl
    | cons c rest =>
      simp only [occurs, Bool.or_eq_false_iff] at h
      simp [replGo, h.1, ih rest h.2]

theorem replaceAll_of_not_occurs (pat l : List Char) (h : occurs pat l = false) :
    replaceAll pat l = l :=
  replGo_of_not_occurs pat l.length l h

theorem replGo_fuel (pat : List Char) (hp : pat ≠ []) :
    ∀ (n m : Nat) (l : List Char), l.length ≤ n → l.length ≤ m →
      replGo pat n l = replGo pat m l := by
  intro n
  induction n with
  | zero =>
    intro m l hn _
    have : l = [] := List.eq_nil_of_length_eq_zero (Nat.le_zero.mp hn)
    subst this; cases m <;> rfl
  | succ n ih =>
    intro m l hn hm
    cases l with
    | nil => cases m <;> rfl
    | cons c rest =>
      cases m with
      | zero => exact absurd hm (by simp)
      | succ m =>
        have hpat : 1 ≤ pat.length := by
          cases pat with
          | nil => exact absurd rfl hp
          | cons a as => simp
        by_cases hpre : pat.isPrefixOf (c :: rest) = true
        · have hdrop : ((c :: rest).drop pat.length).length ≤ rest.length := by
            simp only [List.length_drop, List.length_cons]
            omega
          simp only [replGo, hpre, if_true]
          exact ih m ((c :: rest).drop pat.length)
            (Nat.le_trans hdrop (Nat.le_of_succ_le_succ hn))
            (Nat.le_trans hdrop (Nat.le_of_succ_le_succ hm))
        · have hpre' : pat.isPrefixOf (c :: rest) = false :=
            Bool.eq_false_iff.mpr hpre
          simp only [replGo, hpre', if_false, Bool.false_eq_true]
          exact congrArg (c :: ·) (ih m rest (Nat.le_of_succ_le_succ hn) (Nat.le_of_succ_le_succ hm))

theorem replaceAll_cons_neg (pat : List Char) (c : Char) (rest : List Char)
    (h : pat.isPrefixOf (c :: rest) = false) :
    replaceAll pat (c :: rest) = c :: replaceAll pat rest := by
  unfold replaceAll
  simp [replGo, h]

theorem replaceAll_pos (pat l : List Char) (hp : pat ≠ []) (h : pat.isPrefixOf l = true) :
    replaceAll pat l = replaceAll pat (l.drop pat.length) := by
  cases l with
  | nil =>
    cases pat with
    | nil => exact absurd rfl hp
    | cons a as => simp [List.isPrefixOf] at h
  | cons c rest =>
    unfold replaceAll
    have hpat : 1 ≤ pat.length := by
      cases pat with
      | nil => exact absurd rfl hp
      | cons a as => simp
    have hdrop : ((c :: rest).drop pat.length).length ≤ rest.length := by
      simp only [List.length_drop, List.length_cons]
      omega
    simp only [List.length_cons, replGo, h, if_true]
    exact replGo_fuel pat hp rest.length ((c :: rest).drop pat.length).length
      ((c :: rest).drop pat.length) hdrop (Nat.le_refl _)

theorem prefix_of_append_of_le {α : Type} (a x y : List α) (h : a <+: x ++ y)
    (hl : a.length ≤ x.length) : a <+: x := by
  rw [List.prefix_iff_eq_take] at h
  rw [List.take_append_of_le_length hl] at h
  rw [h]
  exact List.take_prefix _ _

theorem tick3_prefix_of_fence7 : tick3 <+: fence7 := ⟨strL ("json"), rfl⟩

theorem not_occurs_fence7_append (t : List Char) (h : occurs tick3 t = false) :
    occurs fence7 (t ++ tick3) = false := by
  by_contra hc
  rw [Bool.not_eq_false, occurs_iff_isInfix] at hc
  obtain ⟨s, e, he⟩ := hc
  have hlen : s.length + 7 + e.length = t.length + 3 := by
    have hl := congrArg List.length he
    simp only [List.length_append, show fence7.length = 7 from rfl,
      show tick3.length = 3 from rfl] at hl
    omega
  have hpre : (s ++ tick3) <+: t ++ tick3 := by
    have h1 : (s ++ tick3) <+: s ++ fence7 ++ e := by
      have : s ++ fence7 ++ e = (s ++ tick3) ++ (strL ("json") ++ e) := by
        simp [fence7, tick3, strL]
      rw [this]
      exact List.prefix_append _ _
    rw [he] at h1
    exact h1
  have hle : (s ++ tick3).length ≤ t.length := by
    simp only [List.length_append, show tick3.length = 3 from rfl]
    omega
  have hpt : (s ++ tick3) <+: t := prefix_of_append_of_le _ _ _ hpre hle
  obtain ⟨e', he'⟩ := hpt
  have : tick3 <:+: t := ⟨s, e', by rw [← he']⟩
  rw [← occurs_iff_isInfix] at this
  rw [this] at h
  exact absurd h (by simp)

theorem replaceAll_tick3_aux : ∀ (n : Nat) (t : List Char), t.length ≤ n →
    occurs tick3 t = false → replaceAll tick3 (t ++ tick3) = t := by
  intro n
  induction n using Nat.strong_induction_on with
  | _ n ih =>
    intro t hlen h
    cases t with
    | nil => rfl
    | cons c t' =>
      by_cases hc : c = '\x60'
      · subst hc
        cases t' with
        | nil => decide
        | cons c2 t'' =>
          by_cases hc2 : c2 = '\x60'
          · subst hc2
            cases t'' with
            | nil => decide
            | cons c3 r =>
              have hc3 : c3 ≠ '\x60' := by
                intro e
                subst e
                simp [occurs, tick3, strL, List.isPrefixOf] at h
              have hb3 : ('\x60' == c3) = false := beq_eq_false_iff_ne.mpr (fun e => hc3 e.symm)
              have h1 : tick3.isPrefixOf ('\x60' :: '\x60' :: c3 :: (r ++ tick3)) = false := by
                simp [tick3, strL, List.isPrefixOf, hb3]
              have h2 : tick3.isPrefixOf ('\x60' :: c3 :: (r ++ tick3)) = false := by
                simp [tick3, strL, List.isPrefixOf, hb3]
              have h3 : tick3.isPrefixOf (c3 :: (r ++ tick3)) = false := by
                simp [tick3, strL, List.isPrefixOf, hb3]
              have hr : occurs tick3 r = false := by
                simp only [occurs, Bool.or_eq_false_iff] at h
                exact h.2.2.2
              have hrlen : r.length < n := by
                simp only [List.length_cons] at hlen
                omega
              calc replaceAll tick3 (('\x60' :: '\x60' :: c3 :: r) ++ tick3)
                  = '\x60' :: replaceAll tick3 ('\x60' :: c3 :: (r ++ tick3)) := by
                    rw [List.cons_append]
                    exact replaceAll_cons_neg _ _ _ h1
                _ = '\x60' :: '\x60' :: replaceAll tick3 (c3 :: (r ++ tick3)) := by
                    rw [replaceAll_cons_neg _ _ _ h2]
                _ = '\x60' :: '\x60' :: c3 :: replaceAll tick3 (r ++ tick3) := by
                    rw [replaceAll_cons_neg _ _ _ h3]
                _ = '\x60' :: '\x60' :: c3 :: r := by
                    rw [ih r.length hrlen r (Nat.le_refl _) hr]
          · have hb2 : ('\x60' == c2) = false := beq_eq_false_iff_ne.mpr (fun e => hc2 e.symm)
            have h1 : tick3.isPrefixOf ('\x60' :: ((c2 :: t'') ++ tick3)) = false := by
              simp [tick3, strL, List.isPrefixOf, hb2]
            have ht' : occurs tick3 (c2 :: t'') = false := by
              simp only [occurs, Bool.or_eq_false_iff] at h ⊢
              exact h.2
            have hlen' : (c2 :: t'').length < n := by
              simp only [List.length_cons] at hlen ⊢
              omega
            rw [List.cons_append, replaceAll_cons_neg _ _ _ h1,
              ih (c2 :: t'').length hlen' (c2 :: t'') (Nat.le_refl _) ht']
      · have hb : ('\x60' == c) = false := beq_eq_false_iff_ne.mpr (fun e => hc e.symm)
        have h1 : tick3.isPrefixOf (c :: (t' ++ tick3)) = false := by
          simp [tick3, strL, List.isPrefixOf, hb]
        have ht' : occurs tick3 t' = false := by
          simp only [occurs, Bool.or_eq_false_iff] at h
          exact h.2
        have hlen' : t'.length < n := by
          simp only [List.length_cons] at hlen
          omega
        rw [List.cons_append, replaceAll_cons_neg _ _ _ h1,
          ih t'.length hlen' t' (Nat.le_refl _) ht']

theorem replaceAll_tick3_append (t : List Char) (h : occurs tick3 t = false) :
    replaceAll tick3 (t ++ tick3) = t :=
  replaceAll_tick3_aux t.length t (Nat.le_refl _) h

theorem dropWhile_cons_false {p : Char → Bool} {c : Char} {l : List Char} (h : p c = false) :
    (c :: l).dropWhile p = c :: l := by
  simp [List.dropWhile_cons, h]

/-- A string whose first and last characters are not whitespace is unchanged
by `str.strip()`. -/
theorem pyStrip_no_ws_ends (c d : Char) (mid : List Char) (hc : pyWS c = false)
    (hd : pyWS d = false) : pyStrip (c :: (mid ++ [d])) = c :: (mid ++ [d]) := by
  unfold pyStrip
  rw [dropWhile_cons_false hc]
  rw [show (c :: (mid ++ [d])).reverse = d :: (mid.reverse ++ [c]) by simp]
  rw [dropWhile_cons_false hd]
  simp

theorem pyStrip_wrap (t : List Char) :
    pyStrip (fence7 ++ (t ++ tick3)) = fence7 ++ (t ++ tick3) := by
  have hshape : fence7 ++ (t ++ tick3) =
      '\x60' :: ((strL ("\x60\x60json") ++ t ++ strL ("\x60\x60")) ++ ['\x60']) := by
    simp [fence7, tick3, strL]
  rw [hshape, pyStrip_no_ws_ends _ _ _ (by decide) (by decide)]

/-- `str.strip()` yields an infix of its input. -/
theorem pyStrip_isInfix (l : List Char) : pyStrip l <:+: l := by
  unfold pyStrip
  have h1 : l.dropWhile pyWS <:+ l := List.dropWhile_suffix pyWS
  have h2 : (l.dropWhile pyWS).reverse.dropWhile pyWS <:+ (l.dropWhile pyWS).reverse :=
    List.dropWhile_suffix pyWS
  have h3 : ((l.dropWhile pyWS).reverse.dropWhile pyWS).reverse <+: l.dropWhile pyWS := by
    have := List.reverse_prefix.mpr h2
    rwa [List.reverse_reverse] at this
  exact h3.isInfix.trans h1.isInfix

/-- `str.strip()` of a string starting with ` ``` ` still starts with ` ``` `,
and what follows is a prefix of what followed. -/
theorem pyStrip_tick3 (r : List Char) :
    ∃ q, pyStrip (tick3 ++ r) = tick3 ++ q ∧ q <+: r := by
  unfold pyStrip
  have h1 : (tick3 ++ r).dropWhile pyWS = tick3 ++ r := by
    rw [show tick3 ++ r = '\x60' :: ('\x60' :: '\x60' :: r) from rfl]
    exact dropWhile_cons_false (by decide)
  rw [h1]
  rw [show (tick3 ++ r).reverse = r.reverse ++ tick3 by simp [tick3, strL]]
  rw [List.dropWhile_append]
  by_cases he : (r.reverse.dropWhile pyWS).isEmpty
  · simp only [he, if_true]
    refine ⟨[], ?_, List.nil_prefix⟩
    rw [show tick3.dropWhile pyWS = tick3 from dropWhile_cons_false (by decide)]
    simp [tick3, strL]
  · simp only [he, if_false, Bool.false_eq_true]
    refine ⟨(r.reverse.dropWhile pyWS).reverse, ?_, ?_⟩
    · rw [List.reverse_append]
      simp [tick3, strL]
    · have h2 : r.reverse.dropWhile pyWS <:+ r.reverse := List.dropWhile_suffix pyWS
      have := List.reverse_prefix.mpr h2
      rwa [List.reverse_reverse] at this

theorem parseVal_backtick (n : Nat) (q : List Char) : parseVal n ('\x60' :: q) = none := by
  cases n with
  | zero => rfl
  | succ n => rfl

theorem jsonLoads_backtick (q : List Char) : jsonLoads ('\x60' :: q) = none := by
  unfold jsonLoads
  rw [parseVal_backtick]

/-- When the stripped reply starts with the ` ```json ` marker, the code path
is: delete every ` ```json `, delete every ` ``` `, strip, parse.  If the
enclosed text `t` contains no ` ``` ` run, both deletions remove exactly the
two markers, so the wrapped reply parses as the enclosed text. -/
theorem parseResponse_wrap (t : List Char) (h : occurs tick3 t = false) :
    parseResponse (fence7 ++ (t ++ tick3)) = jsonLoads (pyStrip t) := by
  unfold parseResponse
  rw [pyStrip_wrap]
  have hpre : fence7.isPrefixOf (fence7 ++ (t ++ tick3)) = true := by
    rw [List.isPrefixOf_iff_prefix]
    exact List.prefix_append _ _
  rw [hpre]
  have h1 : replaceAll fence7 (fence7 ++ (t ++ tick3)) = t ++ tick3 := by
    rw [replaceAll_pos fence7 _ (by decide) hpre,
      show fence7.length = fence7.length from rfl, List.drop_left]
    exact replaceAll_of_not_occurs _ _ (not_occurs_fence7_append t h)
  rw [if_pos rfl, h1, replaceAll_tick3_append t h]

/-- A reply containing no ` ``` ` run does not start with the marker, so the
code parses its stripped text directly. -/
theorem parseResponse_no_tick (t : List Char) (h : occurs tick3 t = false) :
    parseResponse t = jsonLoads (pyStrip t) := by
  unfold parseResponse
  have hfence : fence7.isPrefixOf (pyStrip t) = false := by
    by_contra hc
    rw [Bool.not_eq_false, List.isPrefixOf_iff_prefix] at hc
    have htick : tick3 <+: pyStrip t := tick3_prefix_of_fence7.trans hc
    have hinf : tick3 <:+: t := htick.isInfix.trans (pyStrip_isInfix t)
    rw [← occurs_iff_isInfix] at hinf
    rw [hinf] at h
    exact absurd h (by simp)
  rw [hfence]
  simp

/-- A reply that starts with a bare ` ``` ` (not ` ```json `) is parsed
verbatim and fails: the strip branch is not taken, and JSON parsing rejects
a leading backtick. -/
theorem parseResponse_bare_fence (t : List Char) (h1 : tick3.isPrefixOf t = true)
    (h2 : fence7.isPrefixOf t = false) : parseResponse t = none := by
  rw [List.isPrefixOf_iff_prefix] at h1
  obtain ⟨r, hr⟩ := h1
  subst hr
  obtain ⟨q, hq, hqr⟩ := pyStrip_tick3 r
  unfold parseResponse
  rw [hq]
  have hf : fence7.isPrefixOf (tick3 ++ q) = false := by
    by_contra hc
    rw [Bool.not_eq_false, List.isPrefixOf_iff_prefix] at hc
    have hj : strL ("json") <+: q := by
      have hx : tick3 ++ strL ("json") <+: tick3 ++ q := by
        rw [show tick3 ++ strL ("json") = fence7 from rfl]
        exact hc
      exact (List.prefix_append_right_inj tick3).mp hx
    have hful : fence7.isPrefixOf (tick3 ++ r) = true := by
      rw [List.isPrefixOf_iff_prefix, show fence7 = tick3 ++ strL ("json") from rfl]
      exact (List.prefix_append_right_inj tick3).mpr (hj.trans hqr)
    rw [hful] at h2
    exact absurd h2 (by simp)
  rw [hf]
  simp only [Bool.false_eq_true, if_false]
  exact jsonLoads_backtick ('\x60' :: '\x60' :: q)

theorem analyze_of_parse_none (c sv t : List Char) (ts ti : List (List Char))
    (h : parseResponse t = none) :
    analyze_company_fit c ts ti sv (fun _ => .text t) = .err jsonErrorMsg := by
  simp [analyze_company_fit, h]

/-- Projection used to separate two parse results without comparing whole
JSON values: the length of the string stored under key `"a"`. -/
def fieldALen : Option Json → Nat
  | some j =>
    match j.get (strL ("a")) with
    | some (.str s) => s.length
    | _ => 999
  | none => 1000

/-- Modelled from the spec's words (§4.3, claim C8 as stated): remove one
exactly matching leading ` ```json ` marker and one trailing ` ``` ` marker
when present, leave the enclosed text otherwise unchanged, then JSON-parse
the remainder. -/
def specFenceParse (t : List Char) : Option Json :=
  let s := pyStrip t
  let s1 := if fence7.isPrefixOf s then s.drop 7 else s
  let s2 := if tick3.reverse.isPrefixOf s1.reverse then (s1.reverse.drop 3).reverse else s1
  jsonLoads (pyStrip s2)

/-- C2, as stated, is false: the reply `{"a":"```"}` parses successfully, but
its ` ```json `-fenced wrapping parses to a different record, because
`str.replace` also deletes the interior ` ``` ` inside the string value
(field `"a"` becomes `""` instead of ` ``` `). -/
theorem c2_counterexample :
    parseResponse (strL ("\x7b\"a\":\"\x60\x60\x60\"\x7d")) ≠ none ∧
    parseResponse (fence7 ++ (strL ("\x7b\"a\":\"\x60\x60\x60\"\x7d") ++ tick3)) ≠
      parseResponse (strL ("\x7b\"a\":\"\x60\x60\x60\"\x7d")) := by
  constructor
  · intro h
    have h1 : fieldALen (parseResponse (strL ("\x7b\"a\":\"\x60\x60\x60\"\x7d"))) = 3 := rfl
    rw [h] at h1
    exact absurd h1 (by decide)
  · intro h
    have h1 := congrArg fieldALen h
    rw [show fieldALen (parseResponse (fence7 ++ (strL ("\x7b\"a\":\"\x60\x60\x60\"\x7d") ++ tick3))) = 0
        from rfl,
      show fieldALen (parseResponse (strL ("\x7b\"a\":\"\x60\x60\x60\"\x7d"))) = 3 from rfl] at h1
    exact absurd h1 (by decide)

/-- C2 (amended): for every reply text `t` that contains no ` ``` ` run,
parsing `t` and parsing `t` wrapped in a ` ```json ` code fence yield
identical structured records. -/
theorem c2_fence_wrap_invariant (t : List Char) (h : occurs tick3 t = false) :
    parseResponse (fence7 ++ (t ++ tick3)) = parseResponse t := by
  rw [parseResponse_wrap t h, parseResponse_no_tick t h]

theorem c2_fence_wrap_invariant_witness :
    occurs tick3 (strL ("\x7b\"ok\":true\x7d")) = false ∧
    parseResponse (fence7 ++ (strL ("\x7b\"ok\":true\x7d") ++ tick3)) =
      parseResponse (strL ("\x7b\"ok\":true\x7d")) :=
  ⟨by decide, c2_fence_wrap_invariant _ (by decide)⟩

/-- C8, as stated, is false: on `\x60\x60\x60json{"a": "x\x60\x60\x60y"}\x60\x60\x60`
the code does not leave the enclosed text unchanged — `str.replace` deletes
the interior ` ``` ` so the code yields `"a" = "xy"` while removing only the
two outer markers (the spec's wording, `specFenceParse`) yields
`"a" = "x\x60\x60\x60y"`. -/
theorem c8_counterexample :
    parseResponse (strL ("\x60\x60\x60json\x7b\"a\": \"x\x60\x60\x60y\"\x7d\x60\x60\x60")) ≠
      specFenceParse (strL ("\x60\x60\x60json\x7b\"a\": \"x\x60\x60\x60y\"\x7d\x60\x60\x60")) := by
  intro h
  have h1 := congrArg fieldALen h
  rw [show fieldALen (parseResponse
        (strL ("\x60\x60\x60json\x7b\"a\": \"x\x60\x60\x60y\"\x7d\x60\x60\x60"))) = 2 from rfl,
    show fieldALen (specFenceParse
        (strL ("\x60\x60\x60json\x7b\"a\": \"x\x60\x60\x60y\"\x7d\x60\x60\x60"))) = 5 from rfl] at h1
  exact absurd h1 (by decide)

/-- C8 (amended): when the reply starts with ` ```json `, the parser deletes
every occurrence of ` ```json ` and then every occurrence of ` ``` ` in the
whole text (interior occurrences included), strips whitespace and JSON-parses
the remainder; when the enclosed text contains no ` ``` ` run this removes
exactly the two markers and leaves the enclosed text unchanged. -/
theorem c8_fence_strip (t : List Char) (h : occurs tick3 t = false) :
    parseResponse (fence7 ++ (t ++ tick3)) = jsonLoads (pyStrip t) :=
  parseResponse_wrap t h

theorem c8_fence_strip_witness :
    occurs tick3 (strL ("\x7b\"ok\":true\x7d")) = false ∧
    parseResponse (fence7 ++ (strL ("\x7b\"ok\":true\x7d") ++ tick3)) =
      jsonLoads (pyStrip (strL ("\x7b\"ok\":true\x7d"))) :=
  ⟨by decide, c8_fence_strip _ (by decide)⟩

/-- C9: a reply beginning with a bare ` ``` ` fence (not ` ```json `) gets no
fence stripping: the fenced text is JSON-parsed verbatim, fails on the
leading backtick, and the stage returns the error result — even when the
fenced content is valid JSON. -/
theorem c9_bare_fence_fails (t : List Char) (h1 : tick3.isPrefixOf t = true)
    (h2 : fence7.isPrefixOf t = false) :
    parseResponse t = none ∧
    ∀ (c sv : List Char) (ts ti : List (List Char)),
      analyze_company_fit c ts ti sv (fun _ => .text t) = .err jsonErrorMsg := by
  have hp := parseResponse_bare_fence t h1 h2
  exact ⟨hp, fun c sv ts ti => analyze_of_parse_none c sv t ts ti hp⟩

theorem c9_bare_fence_fails_witness :
    tick3.isPrefixOf (strL ("\x60\x60\x60\n\x7b\"a\": 1\x7d\n\x60\x60\x60")) = true ∧
    jsonLoads (strL ("\n\x7b\"a\": 1\x7d\n")) ≠ none ∧
    parseResponse (strL ("\x60\x60\x60\n\x7b\"a\": 1\x7d\n\x60\x60\x60")) = none :=
  ⟨by decide, by
    intro h
    have h1 : (jsonLoads (strL ("\n\x7b\"a\": 1\x7d\n"))).isSome = true := rfl
    rw [h] at h1
    exact absurd h1 (by decide),
   (c9_bare_fence_fails _ (by decide) (by decide)).1⟩

/-! ## Pipeline and history-store claims -/

/-- C3: each stage function always returns one of the two structured results;
exceptions (provider failure, parse failure) are values of the embedding, so
nothing escapes the function boundary.  Prompt construction and client
construction for string inputs are pure and total, matching their position
before the `try` in the source. -/
theorem c3_stage_totality (c ov ind sv : List Char) (ts ti : List (List Char))
    (p q : List Char → ProviderResult) :
    ((∃ d, analyze_company_fit c ts ti sv p = .ok d) ∨
      (∃ m, analyze_company_fit c ts ti sv p = .err m)) ∧
    ((∃ d, generate_pain_point_analysis c ov ind sv q = .ok d) ∨
      (∃ m, generate_pain_point_analysis c ov ind sv q = .err m)) := by
  constructor
  · cases h : analyze_company_fit c ts ti sv p with
    | ok d => exact Or.inl ⟨d, rfl⟩
    | err m => exact Or.inr ⟨m, rfl⟩
  · cases h : generate_pain_point_analysis c ov ind sv q with
    | ok d => exact Or.inl ⟨d, rfl⟩
    | err m => exact Or.inr ⟨m, rfl⟩

/-- C4: when stage 1 returns a fit assessment with `is_good_fit = false`, the
run makes exactly one provider call — stage 2 is never issued. -/
theorem c4_poor_fit_single_call (company genTime sv : List Char)
    (ts ti : List (List Char)) (p1 p2 : List Char → ProviderResult)
    (hist : List AnalysisRecord) (fit : Json)
    (hok : analyze_company_fit company ts ti sv p1 = .ok fit)
    (hgf : fit.get (strL ("is_good_fit")) = some (.bool false)) :
    (runPipeline company genTime ts ti sv p1 p2 hist).providerCalls = 1 := by
  unfold runPipeline
  rw [hok]
  cases hd : displayFit fit with
  | false => simp [hd]
  | true => simp [hd, hgf, jsonTruthy]

theorem c4_poor_fit_single_call_witness :
    analyze_company_fit (strL ("Acme")) [] [] []
        (fun _ => .text (strL ("\x7b\"is_good_fit\": false\x7d"))) =
      .ok (Json.obj [(strL ("is_good_fit"), Json.bool false)]) ∧
    (runPipeline (strL ("Acme")) (strL ("t0")) [] [] []
        (fun _ => .text (strL ("\x7b\"is_good_fit\": false\x7d")))
        (fun _ => .failure (strL ("x"))) []).providerCalls = 1 :=
  ⟨rfl, c4_poor_fit_single_call _ _ _ _ _ _ _ [] _ rfl rfl⟩

theorem foldl_appendRecord (recs : List AnalysisRecord) :
    ∀ init, List.foldl appendRecord init recs = init ++ recs := by
  induction recs with
  | nil => intro init; simp
  | cons r rest ih => intro init; simp [List.foldl_cons, appendRecord, ih]

/-- C7: display iterates the history store in exact reverse order of
appending; in particular appending `r1`, `r2`, `r3` to the fresh store
displays `[r3, r2, r1]`. -/
theorem c7_display_reverse (recs : List AnalysisRecord) (r1 r2 r3 : AnalysisRecord) :
    displayOrder (List.foldl appendRecord [] recs) = recs.reverse ∧
    displayOrder (appendRecord (appendRecord (appendRecord [] r1) r2) r3) = [r3, r2, r1] := by
  constructor
  · simp [displayOrder, foldl_appendRecord]
  · simp [displayOrder, appendRecord]

/-- C1, as stated, is false: this run's stage 1 succeeds with
`is_good_fit = false`, so the pipeline halts after stage 1 — the spec's
"partial success" — yet the history store stays empty: the append at source
line 508 sits only in the branch where stage 2 succeeded, and the poor-fit
branch (lines 534-552) never appends. -/
theorem c1_counterexample :
    (runPipeline (strL ("Acme")) (strL ("t0")) [] [] []
        (fun _ => .text (strL ("\x7b\"fit_score\": 1, \"industry\": \"x\", \"is_good_fit\": false, \"brief_company_overview\": \"y\", \"fit_reasoning\": \"z\"\x7d")))
        (fun _ => .failure (strL ("x"))) []).outcome = .poorFit ∧
    (runPipeline (strL ("Acme")) (strL ("t0")) [] [] []
        (fun _ => .text (strL ("\x7b\"fit_score\": 1, \"industry\": \"x\", \"is_good_fit\": false, \"brief_company_overview\": \"y\", \"fit_reasoning\": \"z\"\x7d")))
        (fun _ => .failure (strL ("x"))) []).history = [] :=
  ⟨rfl, rfl⟩

/-- C1 (amended): a record is appended to the History Store exactly on full
success: both stages succeed and the two result displays complete without
raising (which, per Python iteration, includes stage-2 sequence fields that
are empty or string/dict-valued, not only well-formed lists); on partial
success — stage 2 failed, or skipped because `is_good_fit` is falsy — and on
every failure, the history is unchanged. -/
theorem c1_append_only_full_success (company genTime sv : List Char)
    (ts ti : List (List Char)) (p1 p2 : List Char → ProviderResult)
    (hist : List AnalysisRecord) :
    ((runPipeline company genTime ts ti sv p1 p2 hist).outcome ≠ .fullSuccess →
      (runPipeline company genTime ts ti sv p1 p2 hist).history = hist) ∧
    ((runPipeline company genTime ts ti sv p1 p2 hist).outcome = .fullSuccess →
      ∃ fit pain, (runPipeline company genTime ts ti sv p1 p2 hist).history =
        hist ++ [⟨genTime, company, fit, some pain⟩]) := by
  unfold runPipeline
  split
  · exact ⟨fun _ => rfl, fun h => nomatch h⟩
  · split
    · split
      · split
        · exact ⟨fun _ => rfl, fun h => nomatch h⟩
        · split
          · exact ⟨fun h => absurd rfl h, fun _ => ⟨_, _, rfl⟩⟩
          · exact ⟨fun _ => rfl, fun h => nomatch h⟩
      · exact ⟨fun _ => rfl, fun h => nomatch h⟩
    · exact ⟨fun _ => rfl, fun h => nomatch h⟩

theorem c1_append_only_full_success_witness :
    (runPipeline (strL ("Acme")) (strL ("t0")) [] [] []
        (fun _ => .text (strL ("\x7b\"fit_score\": 1, \"industry\": \"x\", \"is_good_fit\": false, \"brief_company_overview\": \"y\", \"fit_reasoning\": \"z\"\x7d")))
        (fun _ => .failure (strL ("x"))) []).history = ([] : List AnalysisRecord) :=
  (c1_append_only_full_success (strL ("Acme")) (strL ("t0")) [] [] []
    (fun _ => .text (strL ("\x7b\"fit_score\": 1, \"industry\": \"x\", \"is_good_fit\": false, \"brief_company_overview\": \"y\", \"fit_reasoning\": \"z\"\x7d")))
    (fun _ => .failure (strL ("x"))) []).1 (by decide)

/-- The record invariant of C6: a present pain analysis comes with a truthy
`is_good_fit` in the same record. -/
def recInv (r : AnalysisRecord) : Prop :=
  r.pain_data.isSome = true →
    ∃ v, r.fit_data.get (strL ("is_good_fit")) = some v ∧ jsonTruthy v = true

/-- Shape of one run's effect on the history: either unchanged, or exactly
one record appended, whose fields come from a truthy good-fit branch. -/
theorem runPipeline_history (company genTime sv : List Char)
    (ts ti : List (List Char)) (p1 p2 : List Char → ProviderResult)
    (hist : List AnalysisRecord) :
    (runPipeline company genTime ts ti sv p1 p2 hist).history = hist ∨
    ∃ fit pain, displayFit fit = true ∧
      jsonTruthy ((fit.get (strL ("is_good_fit"))).getD .null) = true ∧
      displayPain pain = true ∧
      (runPipeline company genTime ts ti sv p1 p2 hist).history =
        hist ++ [⟨genTime, company, fit, some pain⟩] := by
  unfold runPipeline
  split
  · exact Or.inl rfl
  · split
    · split
      · split
        · exact Or.inl rfl
        · split
          · refine Or.inr ⟨_, _, ?_, ?_, ?_, rfl⟩ <;> assumption
          · exact Or.inl rfl
      · exact Or.inl rfl
    · exact Or.inl rfl

theorem stepHistory_inv (hist : List AnalysisRecord) (i : RunInput)
    (h : ∀ r ∈ hist, recInv r) : ∀ r ∈ stepHistory hist i, recInv r := by
  intro r hr
  unfold stepHistory at hr
  rcases runPipeline_history i.company_name i.genTime i.our_services i.target_sectors
      i.target_industries i.provider1 i.provider2 hist with heq | ⟨fit, pain, hdf, htr, _, heq⟩
  · rw [heq] at hr
    exact h r hr
  · rw [heq] at hr
    rcases List.mem_append.mp hr with hm | hm
    · exact h r hm
    · have hrec := List.mem_singleton.mp hm
      subst hrec
      intro _
      simp only [displayFit, Bool.and_eq_true] at hdf
      obtain ⟨v, hv⟩ := Option.isSome_iff_exists.mp hdf.1.1.2
      refine ⟨v, hv, ?_⟩
      rw [hv] at htr
      simpa using htr

theorem runAll_inv (inputs : List RunInput) :
    ∀ (hist : List AnalysisRecord), (∀ r ∈ hist, recInv r) →
      ∀ r ∈ List.foldl stepHistory hist inputs, recInv r := by
  induction inputs with
  | nil => intro hist h r hr; exact h r hr
  | cons i rest ih =>
    intro hist h r hr
    exact ih (stepHistory hist i) (stepHistory_inv hist i h) r hr

/-- C6: in every record the History Store can ever contain (any sequence of
runs starting from the empty session store), a present PainAnalysis implies
the stored fit assessment's `is_good_fit` field is present and truthy; in
particular, when that field is a boolean it is `true`. -/
theorem c6_pain_implies_good_fit (inputs : List RunInput) (r : AnalysisRecord)
    (hmem : r ∈ runAll inputs) (hpain : r.pain_data.isSome = true) :
    ∃ v, r.fit_data.get (strL ("is_good_fit")) = some v ∧ jsonTruthy v = true ∧
      ∀ b, v = Json.bool b → b = true := by
  have hinv := runAll_inv inputs [] (by intro r hr; exact absurd hr (List.not_mem_nil r)) r hmem hpain
  obtain ⟨v, hv, htr⟩ := hinv
  refine ⟨v, hv, htr, ?_⟩
  intro b hb
  subst hb
  simpa [jsonTruthy] using htr

/-- Stage-1 reply used by the concrete full-success run of the C6 witness. -/
def fitReplyW : List Char :=
  strL ("\x7b\"fit_score\": 82, \"industry\": \"Software\", \"is_good_fit\": true, \"brief_company_overview\": \"ov\", \"fit_reasoning\": \"fr\"\x7d")

/-- Stage-2 reply used by the concrete full-success run of the C6 witness. -/
def painReplyW : List Char :=
  strL ("\x7b\"potential_pain_points\": [], \"how_we_can_help\": [], \"engagement_strategy\": \x7b\"primary_contact\": \"CTO\", \"key_talking_points\": [], \"differentiation_angle\": \"da\"\x7d, \"estimated_opportunity_value\": \"large\", \"recommended_next_steps\": []\x7d")

def inputW : RunInput :=
  ⟨strL ("Acme"), strL ("t0"), [], [], [], fun _ => .text fitReplyW, fun _ => .text painReplyW⟩

def fitJW : Json := .obj
  [ (strL ("fit_score"), .num 82),
    (strL ("industry"), .str (strL ("Software"))),
    (strL ("is_good_fit"), .bool true),
    (strL ("brief_company_overview"), .str (strL ("ov"))),
    (strL ("fit_reasoning"), .str (strL ("fr"))) ]

def painJW : Json := .obj
  [ (strL ("potential_pain_points"), .arr []),
    (strL ("how_we_can_help"), .arr []),
    (strL ("engagement_strategy"), .obj
      [ (strL ("primary_contact"), .str (strL ("CTO"))),
        (strL ("key_talking_points"), .arr []),
        (strL ("differentiation_angle"), .str (strL ("da"))) ]),
    (strL ("estimated_opportunity_value"), .str (strL ("large"))),
    (strL ("recommended_next_steps"), .arr []) ]

/-- The record that run appends. -/
def recW : AnalysisRecord := ⟨strL ("t0"), strL ("Acme"), fitJW, some painJW⟩

theorem c6_pain_implies_good_fit_witness :
    recW ∈ runAll [inputW] ∧
    ∃ v, recW.fit_data.get (strL ("is_good_fit")) = some v ∧ jsonTruthy v = true ∧
      ∀ b, v = Json.bool b → b = true := by
  have hmem : recW ∈ runAll [inputW] := by
    rw [show runAll [inputW] = [recW] from rfl]
    exact List.mem_singleton_self recW
  exact ⟨hmem, c6_pain_implies_good_fit [inputW] recW hmem rfl⟩

/-! ## Report Renderer claims (C5, C10): equations and extraction lemmas -/

theorem severitySymbol_cases (sev : List Char) :
    severitySymbol sev = '●' ∨ severitySymbol sev = '▲' ∨ severitySymbol sev = '○' ∨
      severitySymbol sev = '•' := by
  unfold severitySymbol
  split_ifs <;> simp

/-- A severity whose lowercased text is none of `high`, `medium`, `low` gets
the default bullet. -/
theorem severitySymbol_default (sev : List Char) (h1 : lowerL sev ≠ strL ("high"))
    (h2 : lowerL sev ≠ strL ("medium")) (h3 : lowerL sev ≠ strL ("low")) :
    severitySymbol sev = '•' := by
  unfold severitySymbol
  rw [if_neg h1, if_neg h2, if_neg h3]

theorem isPainEntry_entry (idx : Nat) (sev pp : List Char) :
    isPainEntry (.paragraph .subheading (painEntryText idx sev pp)) = true := by
  rcases severitySymbol_cases sev with h | h | h | h <;>
    · unfold painEntryText
      rw [h]
      rfl

/-- The short-circuit field accessors the renderer's pain loop uses once the
fields are known to be present. -/
def sevOf (p : Json) : List Char := ((p.get (strL ("severity"))).bind asStr).getD []

def ppOf (p : Json) : Json := (p.get (strL ("pain_point"))).getD .null

def evOf (p : Json) : Json := (p.get (strL ("evidence"))).getD .null

/-- Field presence needed by one pain-point loop iteration. -/
def pointOk (p : Json) : Bool :=
  ((p.get (strL ("severity"))).bind asStr).isSome
  && (p.get (strL ("pain_point"))).isSome
  && (p.get (strL ("evidence"))).isSome

def painPointBlockT (idx : Nat) (p : Json) : List Elem :=
  [ .paragraph .subheading (painEntryText idx (sevOf p) (pyStr (ppOf p))),
    .paragraph .normal (strL ("<b>Severity:</b> ") ++ upperL (sevOf p)),
    .paragraph .normal (strL ("<b>Evidence:</b> ") ++ pyStr (evOf p)),
    .spacer ]

def painBlocksT : Nat → List Json → List Elem
  | _, [] => []
  | idx, p :: rest => painPointBlockT idx p ++ painBlocksT (idx + 1) rest

theorem painPointBlock_eq (idx : Nat) (p : Json) (h : pointOk p = true) :
    painPointBlock idx p = some (painPointBlockT idx p) := by
  simp only [pointOk, Bool.and_eq_true] at h
  obtain ⟨⟨h1, h2⟩, h3⟩ := h
  obtain ⟨sev, hsev⟩ := Option.isSome_iff_exists.mp h1
  obtain ⟨pp, hpp⟩ := Option.isSome_iff_exists.mp h2
  obtain ⟨ev, hev⟩ := Option.isSome_iff_exists.mp h3
  unfold painPointBlock painPointBlockT sevOf ppOf evOf
  rw [hsev, hpp, hev]
  rfl

theorem painBlocks_eq (ps : List Json) : ∀ (idx : Nat), (∀ p ∈ ps, pointOk p = true) →
    painBlocks idx ps = some (painBlocksT idx ps) := by
  induction ps with
  | nil => intro idx _; rfl
  | cons p rest ih =>
    intro idx h
    unfold painBlocks painBlocksT
    rw [painPointBlock_eq idx p (h p (List.mem_cons_self p rest)),
      ih (idx + 1) (fun q hq => h q (List.mem_cons_of_mem p hq))]
    rfl

/-- Field presence needed by one solutions loop iteration. -/
def solOk (s : Json) : Bool :=
  (s.get (strL ("our_solution"))).isSome
  && (s.get (strL ("addresses_pain_point"))).isSome
  && (s.get (strL ("value_proposition"))).isSome
  && (s.get (strL ("implementation_approach"))).isSome

def solGet (s : Json) (k : List Char) : Json := (s.get k).getD .null

def solutionBlockT (idx : Nat) (s : Json) : List Elem :=
  [ .paragraph .subheading (strL ("<b>Solution ") ++ natStr idx ++ strL (": ")
      ++ pyStr (solGet s (strL ("our_solution"))) ++ strL ("</b>")),
    .paragraph .normal (strL ("<b>Addresses:</b> ") ++ pyStr (solGet s (strL ("addresses_pain_point")))),
    .paragraph .normal (strL ("<b>Value Proposition:</b> ") ++ pyStr (solGet s (strL ("value_proposition")))),
    .paragraph .normal (strL ("<b>Implementation Approach:</b> ") ++ pyStr (solGet s (strL ("implementation_approach")))),
    .spacer ]

def solutionBlocksT : Nat → List Json → List Elem
  | _, [] => []
  | idx, s :: rest => solutionBlockT idx s ++ solutionBlocksT (idx + 1) rest

theorem solutionBlock_eq (idx : Nat) (s : Json) (h : solOk s = true) :
    solutionBlock idx s = some (solutionBlockT idx s) := by
  simp only [solOk, Bool.and_eq_true] at h
  obtain ⟨⟨⟨h1, h2⟩, h3⟩, h4⟩ := h
  obtain ⟨a, ha⟩ := Option.isSome_iff_exists.mp h1
  obtain ⟨b, hb⟩ := Option.isSome_iff_exists.mp h2
  obtain ⟨c, hc⟩ := Option.isSome_iff_exists.mp h3
  obtain ⟨d, hd⟩ := Option.isSome_iff_exists.mp h4
  unfold solutionBlock solutionBlockT solGet
  rw [ha, hb, hc, hd]
  rfl

theorem solutionBlocks_eq (sols : List Json) : ∀ (idx : Nat),
    (∀ s ∈ sols, solOk s = true) →
    solutionBlocks idx sols = some (solutionBlocksT idx sols) := by
  induction sols with
  | nil => intro idx _; rfl
  | cons s rest ih =>
    intro idx h
    unfold solutionBlocks solutionBlocksT
    rw [solutionBlock_eq idx s (h s (List.mem_cons_self s rest)),
      ih (idx + 1) (fun q hq => h q (List.mem_cons_of_mem s hq))]
    rfl

theorem isPainEntry_normal (t : List Char) : isPainEntry (.paragraph .normal t) = false := rfl

theorem isPainEntry_title (t : List Char) : isPainEntry (.paragraph .title t) = false := rfl

theorem isPainEntry_heading (t : List Char) : isPainEntry (.paragraph .heading t) = false := rfl

theorem isPainEntry_footer (t : List Char) : isPainEntry (.paragraph .footer t) = false := rfl

theorem isPainEntry_spacer : isPainEntry .spacer = false := rfl

theorem isPainEntry_pageBreak : isPainEntry .pageBreak = false := rfl

theorem isPainEntry_table (rows : List (List (List Char))) :
    isPainEntry (.table rows) = false := rfl

theorem isPainEntry_solution_header (rest : List Char) :
    isPainEntry (.paragraph .subheading (strL ("<b>Solution ") ++ rest)) = false := rfl

theorem isPainEntry_fit_reasoning_header :
    isPainEntry (.paragraph .subheading (strL ("Fit Assessment Reasoning"))) = false := rfl

theorem isPainEntry_talking_points_header :
    isPainEntry (.paragraph .subheading (strL ("<b>Key Talking Points:</b>"))) = false := rfl

theorem filter_painBlocksT (ps : List Json) : ∀ (idx : Nat),
    (painBlocksT idx ps).filter isPainEntry = expectedEntries idx ps := by
  induction ps with
  | nil => intro idx; rfl
  | cons p rest ih =>
    intro idx
    unfold painBlocksT
    rw [List.filter_append, ih (idx + 1)]
    have hb : (painPointBlockT idx p).filter isPainEntry =
        [.paragraph .subheading (painEntryText idx (sevOf p) (pyStr (ppOf p)))] := by
      unfold painPointBlockT
      simp [List.filter_cons, isPainEntry_entry, isPainEntry_normal, isPainEntry_spacer]
    rw [hb]
    rfl

theorem filter_solutionBlocksT (sols : List Json) : ∀ (idx : Nat),
    (solutionBlocksT idx sols).filter isPainEntry = [] := by
  induction sols with
  | nil => intro idx; rfl
  | cons s rest ih =>
    intro idx
    unfold solutionBlocksT
    rw [List.filter_append, ih (idx + 1)]
    unfold solutionBlockT
    simp [List.filter_cons, isPainEntry_solution_header, isPainEntry_normal, isPainEntry_spacer]

theorem filter_talkingPoints (kts : List Json) :
    (kts.map (fun p => Elem.paragraph .normal (strL ("• ") ++ pyStr p))).filter isPainEntry = [] := by
  induction kts with
  | nil => rfl
  | cons k rest ih => simp [List.filter_cons, isPainEntry_normal, ih]

theorem filter_stepBlocks (steps : List Json) : ∀ (idx : Nat),
    (stepBlocks idx steps).filter isPainEntry = [] := by
  induction steps with
  | nil => intro idx; rfl
  | cons s rest ih =>
    intro idx
    unfold stepBlocks
    simp [List.filter_cons, isPainEntry_normal, isPainEntry_spacer, ih (idx + 1)]

/-- The fit part of the story (lines 84-128) once all lookups succeed. -/
def fitElems (company genTime ov fr : List Char) (ind sec csz fsc gf : Json) : List Elem :=
  [ .paragraph .title (strL ("Lead Analysis Report")),
    .paragraph .heading (strL ("<b>") ++ company ++ strL ("</b>")),
    .paragraph .normal (strL ("Generated: ") ++ genTime),
    .spacer,
    .paragraph .heading (strL ("Company Overview")),
    .paragraph .normal ov,
    .spacer,
    .paragraph .heading (strL ("Fit Analysis")),
    .table [ [strL ("Metric"), strL ("Value")],
             [strL ("Industry"), pyStr ind],
             [strL ("Sector"), pyStr sec],
             [strL ("Company Size"), pyStr csz],
             [strL ("Fit Score"), pyStr fsc ++ strL ("/100")],
             [strL ("Good Fit?"), if jsonTruthy gf then strL ("Yes ✓") else strL ("No ✗")] ],
    .spacer,
    .paragraph .subheading (strL ("Fit Assessment Reasoning")),
    .paragraph .normal fr,
    .spacer ]

theorem fitStory_eq (company genTime : List Char) (fit : Json) (ov fr : List Char)
    (ind sec csz fsc gf : Json)
    (hov : fit.get (strL ("brief_company_overview")) = some (.str ov))
    (hind : fit.get (strL ("industry")) = some ind)
    (hsec : fit.get (strL ("sector")) = some sec)
    (hcsz : fit.get (strL ("company_size")) = some csz)
    (hfsc : fit.get (strL ("fit_score")) = some fsc)
    (hgf : fit.get (strL ("is_good_fit")) = some gf)
    (hfr : fit.get (strL ("fit_reasoning")) = some (.str fr)) :
    fitStory company genTime fit = some (fitElems company genTime ov fr ind sec csz fsc gf) := by
  simp only [fitStory, hov, hind, hsec, hcsz, hfsc, hgf, hfr, Option.bind_eq_bind,
    Option.some_bind]
  rfl

theorem filter_fitElems (company genTime ov fr : List Char) (ind sec csz fsc gf : Json) :
    (fitElems company genTime ov fr ind sec csz fsc gf).filter isPainEntry = [] := by
  simp [fitElems, List.filter_cons, isPainEntry_title, isPainEntry_heading,
    isPainEntry_normal, isPainEntry_spacer, isPainEntry_table, isPainEntry_fit_reasoning_header]

/-- The conditional pain part of the story (lines 131-175) once all lookups
succeed. -/
def painStoryElems (pts sols : List Json) (pc : Json) (eov : List Char)
    (kts : List Json) (da : Json) (steps : List Json) : List Elem :=
  [ .pageBreak,
    .paragraph .heading (strL ("Pain Points Analysis")) ]
  ++ painBlocksT 1 pts
  ++ [ .paragraph .heading (strL ("How Can Help")) ]
  ++ solutionBlocksT 1 sols
  ++ [ .pageBreak,
       .paragraph .heading (strL ("Engagement Strategy")),
       .paragraph .normal (strL ("<b>Primary Contact:</b> ") ++ pyStr pc),
       .paragraph .normal (strL ("<b>Estimated Opportunity Value:</b> ") ++ upperL eov),
       .spacer,
       .paragraph .subheading (strL ("<b>Key Talking Points:</b>")) ]
  ++ kts.map (fun p => .paragraph .normal (strL ("• ") ++ pyStr p))
  ++ [ .spacer,
       .paragraph .normal (strL ("<b>Differentiation Angle:</b> ") ++ pyStr da),
       .spacer,
       .paragraph .heading (strL ("Recommended Next Steps")) ]
  ++ stepBlocks 1 steps

theorem painStory_eq (pd : Json) (pts sols kts steps : List Json) (strat pc da : Json)
    (eov : List Char)
    (hpts : (pd.get (strL ("potential_pain_points"))).bind asArr = some pts)
    (hptsOk : ∀ p ∈ pts, pointOk p = true)
    (hsols : (pd.get (strL ("how_we_can_help"))).bind asArr = some sols)
    (hsolsOk : ∀ s ∈ sols, solOk s = true)
    (hstrat : pd.get (strL ("engagement_strategy")) = some strat)
    (hpc : strat.get (strL ("primary_contact")) = some pc)
    (heov : (pd.get (strL ("estimated_opportunity_value"))).bind asStr = some eov)
    (hkts : (strat.get (strL ("key_talking_points"))).bind asArr = some kts)
    (hda : strat.get (strL ("differentiation_angle")) = some da)
    (hsteps : (pd.get (strL ("recommended_next_steps"))).bind asArr = some steps) :
    painStory pd = some (painStoryElems pts sols pc eov kts da steps) := by
  simp only [painStory, hpts, hsols, hstrat, hpc, heov, hkts, hda, hsteps,
    painBlocks_eq pts 1 hptsOk, solutionBlocks_eq sols 1 hsolsOk,
    Option.bind_eq_bind, Option.some_bind]
  rfl

theorem report_none_eq (company genTime : List Char) (fit : Json) (ov fr : List Char)
    (ind sec csz fsc gf : Json)
    (hov : fit.get (strL ("brief_company_overview")) = some (.str ov))
    (hind : fit.get (strL ("industry")) = some ind)
    (hsec : fit.get (strL ("sector")) = some sec)
    (hcsz : fit.get (strL ("company_size")) = some csz)
    (hfsc : fit.get (strL ("fit_score")) = some fsc)
    (hgf : fit.get (strL ("is_good_fit")) = some gf)
    (hfr : fit.get (strL ("fit_reasoning")) = some (.str fr)) :
    generate_pdf_report company genTime fit none =
      some (fitElems company genTime ov fr ind sec csz fsc gf ++
        [ .spacer, .paragraph .footer
            (strL ("Generated by Lead Generation Agent | Powered by Claude AI")) ]) := by
  simp only [generate_pdf_report,
    fitStory_eq company genTime fit ov fr ind sec csz fsc gf hov hind hsec hcsz hfsc hgf hfr,
    Option.bind_eq_bind, Option.some_bind]
  rfl

theorem report_some_eq (company genTime : List Char) (fit pd : Json) (ov fr : List Char)
    (ind sec csz fsc gf : Json) (pts sols kts steps : List Json) (strat pc da : Json)
    (eov : List Char)
    (hov : fit.get (strL ("brief_company_overview")) = some (.str ov))
    (hind : fit.get (strL ("industry")) = some ind)
    (hsec : fit.get (strL ("sector")) = some sec)
    (hcsz : fit.get (strL ("company_size")) = some csz)
    (hfsc : fit.get (strL ("fit_score")) = some fsc)
    (hgf : fit.get (strL ("is_good_fit")) = some gf)
    (hfr : fit.get (strL ("fit_reasoning")) = some (.str fr))
    (hpts : (pd.get (strL ("potential_pain_points"))).bind asArr = some pts)
    (hptsOk : ∀ p ∈ pts, pointOk p = true)
    (hsols : (pd.get (strL ("how_we_can_help"))).bind asArr = some sols)
    (hsolsOk : ∀ s ∈ sols, solOk s = true)
    (hstrat : pd.get (strL ("engagement_strategy")) = some strat)
    (hpc : strat.get (strL ("primary_contact")) = some pc)
    (heov : (pd.get (strL ("estimated_opportunity_value"))).bind asStr = some eov)
    (hkts : (strat.get (strL ("key_talking_points"))).bind asArr = some kts)
    (hda : strat.get (strL ("differentiation_angle")) = some da)
    (hsteps : (pd.get (strL ("recommended_next_steps"))).bind asArr = some steps) :
    generate_pdf_report company genTime fit (some pd) =
      some (fitElems company genTime ov fr ind sec csz fsc gf ++
        painStoryElems pts sols pc eov kts da steps ++
        [ .spacer, .paragraph .footer
            (strL ("Generated by Lead Generation Agent | Powered by Claude AI")) ]) := by
  simp only [generate_pdf_report,
    fitStory_eq company genTime fit ov fr ind sec csz fsc gf hov hind hsec hcsz hfsc hgf hfr,
    painStory_eq pd pts sols kts steps strat pc da eov hpts hptsOk hsols hsolsOk hstrat hpc
      heov hkts hda hsteps,
    Option.bind_eq_bind, Option.some_bind]
  rfl

theorem filter_painStoryElems (pts sols : List Json) (pc : Json) (eov : List Char)
    (kts : List Json) (da : Json) (steps : List Json) :
    (painStoryElems pts sols pc eov kts da steps).filter isPainEntry =
      expectedEntries 1 pts := by
  unfold painStoryElems
  simp only [List.filter_append, filter_painBlocksT pts 1, filter_solutionBlocksT sols 1,
    filter_talkingPoints kts, filter_stepBlocks steps 1, List.filter_cons,
    isPainEntry_pageBreak, isPainEntry_heading, isPainEntry_normal, isPainEntry_spacer,
    isPainEntry_talking_points_header]
  simp

theorem expectedEntries_length (pts : List Json) :
    ∀ (idx : Nat), (expectedEntries idx pts).length = pts.length := by
  induction pts with
  | nil => intro idx; rfl
  | cons p rest ih =>
    intro idx
    unfold expectedEntries
    simp [ih (idx + 1)]

/-- C5: with well-formed inputs, rendering without a PainAnalysis succeeds
and contains no pain-points section (no pain entry, no page break, which only
the pain section emits); rendering with a PainAnalysis succeeds and emits
exactly `pts.length` pain-point entries, equal to the input sequence mapped
in order (no reordering, filtering or deduplication). -/
theorem c5_render_contract (company genTime : List Char) (fit pd : Json)
    (ov fr : List Char) (ind sec csz fsc gf : Json) (pts sols kts steps : List Json)
    (strat pc da : Json) (eov : List Char)
    (hov : fit.get (strL ("brief_company_overview")) = some (.str ov))
    (hind : fit.get (strL ("industry")) = some ind)
    (hsec : fit.get (strL ("sector")) = some sec)
    (hcsz : fit.get (strL ("company_size")) = some csz)
    (hfsc : fit.get (strL ("fit_score")) = some fsc)
    (hgf : fit.get (strL ("is_good_fit")) = some gf)
    (hfr : fit.get (strL ("fit_reasoning")) = some (.str fr))
    (hpts : (pd.get (strL ("potential_pain_points"))).bind asArr = some pts)
    (hptsOk : ∀ p ∈ pts, pointOk p = true)
    (hsols : (pd.get (strL ("how_we_can_help"))).bind asArr = some sols)
    (hsolsOk : ∀ s ∈ sols, solOk s = true)
    (hstrat : pd.get (strL ("engagement_strategy")) = some strat)
    (hpc : strat.get (strL ("primary_contact")) = some pc)
    (heov : (pd.get (strL ("estimated_opportunity_value"))).bind asStr = some eov)
    (hkts : (strat.get (strL ("key_talking_points"))).bind asArr = some kts)
    (hda : strat.get (strL ("differentiation_angle")) = some da)
    (hsteps : (pd.get (strL ("recommended_next_steps"))).bind asArr = some steps) :
    (∃ s1, generate_pdf_report company genTime fit none = some s1 ∧
      painEntries s1 = [] ∧ Elem.pageBreak ∉ s1) ∧
    (∃ s2, generate_pdf_report company genTime fit (some pd) = some s2 ∧
      painEntries s2 = expectedEntries 1 pts ∧
      (painEntries s2).length = pts.length) := by
  constructor
  · refine ⟨_, report_none_eq company genTime fit ov fr ind sec csz fsc gf
      hov hind hsec hcsz hfsc hgf hfr, ?_, ?_⟩
    · unfold painEntries
      simp only [List.filter_append, filter_fitElems, List.filter_cons,
        isPainEntry_spacer, isPainEntry_footer]
      simp
    · simp [fitElems, List.mem_append, List.mem_cons]
  · have hpe : painEntries (fitElems company genTime ov fr ind sec csz fsc gf ++
        painStoryElems pts sols pc eov kts da steps ++
        [ .spacer, .paragraph .footer
            (strL ("Generated by Lead Generation Agent | Powered by Claude AI")) ]) =
        expectedEntries 1 pts := by
      unfold painEntries
      simp only [List.filter_append, filter_fitElems, filter_painStoryElems,
        List.filter_cons, isPainEntry_spacer, isPainEntry_footer]
      simp
    refine ⟨_, report_some_eq company genTime fit pd ov fr ind sec csz fsc gf pts sols kts
      steps strat pc da eov hov hind hsec hcsz hfsc hgf hfr hpts hptsOk hsols hsolsOk
      hstrat hpc heov hkts hda hsteps, hpe, ?_⟩
    rw [hpe, expectedEntries_length pts 1]

theorem painBlocksT_append (l1 l2 : List Json) : ∀ (idx : Nat),
    painBlocksT idx (l1 ++ l2) = painBlocksT idx l1 ++ painBlocksT (idx + l1.length) l2 := by
  induction l1 with
  | nil => intro idx; simp [painBlocksT]
  | cons p rest ih =>
    intro idx
    rw [show (p :: rest) ++ l2 = p :: (rest ++ l2) from rfl,
      show painBlocksT idx (p :: (rest ++ l2)) =
        painPointBlockT idx p ++ painBlocksT (idx + 1) (rest ++ l2) from rfl,
      show painBlocksT idx (p :: rest) =
        painPointBlockT idx p ++ painBlocksT (idx + 1) rest from rfl,
      ih (idx + 1), ← List.append_assoc,
      show idx + 1 + rest.length = idx + (p :: rest).length from by simp; omega]

/-- C10: a pain point whose severity, lowercased, is none of `high`,
`medium`, `low` still renders: the report succeeds and that entry's header
carries the default bullet `•` at its input position. -/
theorem c10_unknown_severity_default (company genTime : List Char) (fit pd : Json)
    (ov fr : List Char) (ind sec csz fsc gf : Json) (pts sols kts steps : List Json)
    (strat pc da : Json) (eov : List Char) (l1 l2 : List Json) (p ppv : Json)
    (sev : List Char)
    (hov : fit.get (strL ("brief_company_overview")) = some (.str ov))
    (hind : fit.get (strL ("industry")) = some ind)
    (hsec : fit.get (strL ("sector")) = some sec)
    (hcsz : fit.get (strL ("company_size")) = some csz)
    (hfsc : fit.get (strL ("fit_score")) = some fsc)
    (hgf : fit.get (strL ("is_good_fit")) = some gf)
    (hfr : fit.get (strL ("fit_reasoning")) = some (.str fr))
    (hpts : (pd.get (strL ("potential_pain_points"))).bind asArr = some pts)
    (hptsOk : ∀ q ∈ pts, pointOk q = true)
    (hsols : (pd.get (strL ("how_we_can_help"))).bind asArr = some sols)
    (hsolsOk : ∀ s ∈ sols, solOk s = true)
    (hstrat : pd.get (strL ("engagement_strategy")) = some strat)
    (hpc : strat.get (strL ("primary_contact")) = some pc)
    (heov : (pd.get (strL ("estimated_opportunity_value"))).bind asStr = some eov)
    (hkts : (strat.get (strL ("key_talking_points"))).bind asArr = some kts)
    (hda : strat.get (strL ("differentiation_angle")) = some da)
    (hsteps : (pd.get (strL ("recommended_next_steps"))).bind asArr = some steps)
    (hsplit : pts = l1 ++ p :: l2)
    (hsev : (p.get (strL ("severity"))).bind asStr = some sev)
    (hppv : p.get (strL ("pain_point")) = some ppv)
    (hbad1 : lowerL sev ≠ strL ("high"))
    (hbad2 : lowerL sev ≠ strL ("medium"))
    (hbad3 : lowerL sev ≠ strL ("low")) :
    severitySymbol sev = '•' ∧
    ∃ story, generate_pdf_report company genTime fit (some pd) = some story ∧
      Elem.paragraph .subheading (painEntryText (l1.length + 1) sev (pyStr ppv)) ∈ story := by
  refine ⟨severitySymbol_default sev hbad1 hbad2 hbad3, _,
    report_some_eq company genTime fit pd ov fr ind sec csz fsc gf pts sols kts steps
      strat pc da eov hov hind hsec hcsz hfsc hgf hfr hpts hptsOk hsols hsolsOk hstrat hpc
      heov hkts hda hsteps, ?_⟩
  have hmem : Elem.paragraph .subheading (painEntryText (l1.length + 1) sev (pyStr ppv))
      ∈ painBlocksT 1 pts := by
    rw [hsplit, painBlocksT_append l1 (p :: l2) 1]
    refine List.mem_append_right _ ?_
    have h1 : sevOf p = sev := by
      unfold sevOf
      rw [hsev]
      rfl
    have h2 : ppOf p = ppv := by
      unfold ppOf
      rw [hppv]
      rfl
    unfold painBlocksT painPointBlockT
    rw [h1, h2, Nat.add_comm 1 l1.length]
    exact List.mem_append_left _ (List.mem_cons_self _ _)
  simp only [painStoryElems, List.mem_append, List.mem_cons, hmem]
  simp

/-- Concrete render fixtures for the C5 and C10 witnesses. -/
def fitC5 : Json := .obj
  [ (strL ("brief_company_overview"), .str (strL ("ov"))),
    (strL ("industry"), .str (strL ("Software"))),
    (strL ("sector"), .str (strL ("Tech"))),
    (strL ("company_size"), .str (strL ("50-200"))),
    (strL ("fit_score"), .num 82),
    (strL ("is_good_fit"), .bool true),
    (strL ("fit_reasoning"), .str (strL ("fr"))) ]

def pointA : Json := .obj
  [ (strL ("pain_point"), .str (strL ("p1"))),
    (strL ("severity"), .str (strL ("High"))),
    (strL ("evidence"), .str (strL ("e1"))) ]

def pointB : Json := .obj
  [ (strL ("pain_point"), .str (strL ("p2"))),
    (strL ("severity"), .str (strL ("odd"))),
    (strL ("evidence"), .str (strL ("e2"))) ]

def ptsC5 : List Json := [pointA, pointB]

def solC5 : Json := .obj
  [ (strL ("our_solution"), .str (strL ("s"))),
    (strL ("addresses_pain_point"), .str (strL ("p1"))),
    (strL ("value_proposition"), .str (strL ("v"))),
    (strL ("implementation_approach"), .str (strL ("i"))) ]

def stratC5 : Json := .obj
  [ (strL ("primary_contact"), .str (strL ("CTO"))),
    (strL ("key_talking_points"), .arr [.str (strL ("t1"))]),
    (strL ("differentiation_angle"), .str (strL ("d"))) ]

def painC5 : Json := .obj
  [ (strL ("potential_pain_points"), .arr ptsC5),
    (strL ("how_we_can_help"), .arr [solC5]),
    (strL ("engagement_strategy"), stratC5),
    (strL ("estimated_opportunity_value"), .str (strL ("large"))),
    (strL ("recommended_next_steps"), .arr [.str (strL ("n1"))]) ]

theorem c5_render_contract_witness :
    (∀ p ∈ ptsC5, pointOk p = true) ∧
    ((∃ s1, generate_pdf_report (strL ("Acme")) (strL ("t0")) fitC5 none = some s1 ∧
        painEntries s1 = [] ∧ Elem.pageBreak ∉ s1) ∧
     (∃ s2, generate_pdf_report (strL ("Acme")) (strL ("t0")) fitC5 (some painC5) = some s2 ∧
        painEntries s2 = expectedEntries 1 ptsC5 ∧
        (painEntries s2).length = ptsC5.length)) :=
  ⟨by decide,
    c5_render_contract (strL ("Acme")) (strL ("t0")) fitC5 painC5
      (strL ("ov")) (strL ("fr"))
      (.str (strL ("Software"))) (.str (strL ("Tech"))) (.str (strL ("50-200")))
      (.num 82) (.bool true)
      ptsC5 [solC5] [.str (strL ("t1"))] [.str (strL ("n1"))]
      stratC5 (.str (strL ("CTO"))) (.str (strL ("d"))) (strL ("large"))
      rfl rfl rfl rfl rfl rfl rfl rfl (by decide) rfl (by decide) rfl rfl rfl rfl rfl rfl⟩

theorem c10_unknown_severity_default_witness :
    lowerL (strL ("odd")) ≠ strL ("high") ∧
    (severitySymbol (strL ("odd")) = '•' ∧
     ∃ story, generate_pdf_report (strL ("Acme")) (strL ("t0")) fitC5 (some painC5) =
        some story ∧
      Elem.paragraph .subheading
        (painEntryText ((([pointA] : List Json)).length + 1) (strL ("odd"))
          (pyStr (.str (strL ("p2"))))) ∈ story) :=
  ⟨by decide,
    c10_unknown_severity_default (strL ("Acme")) (strL ("t0")) fitC5 painC5
      (strL ("ov")) (strL ("fr"))
      (.str (strL ("Software"))) (.str (strL ("Tech"))) (.str (strL ("50-200")))
      (.num 82) (.bool true)
      ptsC5 [solC5] [.str (strL ("t1"))] [.str (strL ("n1"))]
      stratC5 (.str (strL ("CTO"))) (.str (strL ("d"))) (strL ("large"))
      [pointA] [] pointB (.str (strL ("p2"))) (strL ("odd"))
      rfl rfl rfl rfl rfl rfl rfl rfl (by decide) rfl (by decide) rfl rfl rfl rfl rfl rfl
      rfl rfl rfl (by decide) (by decide) (by decide)⟩

/-- The display's tolerance is visible in the model: a stage-2 reply whose
`potential_pain_points` is the empty string and whose `key_talking_points`
and `recommended_next_steps` are plain strings is iterated by Python without
raising, so the run reaches the append at line 508: full success with
exactly one record appended. -/
theorem runPipeline_string_iterables_append :
    (runPipeline (strL ("Acme")) (strL ("t0")) [] [] []
        (fun _ => .text fitReplyW)
        (fun _ => .text (strL ("\x7b\"potential_pain_points\": \"\", \"how_we_can_help\": [], \"engagement_strategy\": \x7b\"primary_contact\": \"x\", \"key_talking_points\": \"ab\", \"differentiation_angle\": \"d\"\x7d, \"estimated_opportunity_value\": \"large\", \"recommended_next_steps\": \"go\"\x7d")))
        []).outcome = .fullSuccess ∧
    (runPipeline (strL ("Acme")) (strL ("t0")) [] [] []
        (fun _ => .text fitReplyW)
        (fun _ => .text (strL ("\x7b\"potential_pain_points\": \"\", \"how_we_can_help\": [], \"engagement_strategy\": \x7b\"primary_contact\": \"x\", \"key_talking_points\": \"ab\", \"differentiation_angle\": \"d\"\x7d, \"estimated_opportunity_value\": \"large\", \"recommended_next_steps\": \"go\"\x7d")))
        []).history.length = 1 :=
  ⟨rfl, rfl⟩
